import Mathlib

/-!
Verification of the SOLID-principles bird example
(`SOLID principle example in python.py`).

The file embeds, section by section, the Python classes the claims refer
to, and proves or refutes the spec's claims about them.

String utilities come first: substring search over the underlying
character lists, written so that concrete instances evaluate by
reduction.
-/

/-- Whether the second list is an initial segment of the first. -/
def listStartsWith : List Char → List Char → Bool
  | _, [] => true
  | [], _ :: _ => false
  | a :: as, b :: bs => a == b && listStartsWith as bs

/-- Index of the first occurrence of `pat` as a contiguous sublist of `s`,
or `none` when `pat` does not occur. -/
def listFindSub : List Char → List Char → Option Nat
  | [], pat => if pat = [] then some 0 else none
  | a :: as, pat =>
    if listStartsWith (a :: as) pat then some 0
    else (listFindSub as pat).map (fun i => i + 1)

/-- Index of the first occurrence of `pat` inside `s`, on strings. -/
def strFindSub (s pat : String) : Option Nat :=
  listFindSub s.data pat.data

/-- Whether `pat` occurs inside `s`. -/
def strHasSub (s pat : String) : Bool :=
  (strFindSub s pat).isSome

/-!
## Final example (source lines 240-280)

`Flyable` and `Singable` are abstract interfaces; `Bird` holds a name;
`Sparrow(Bird, Flyable, Singable)` implements `fly` and `sing`;
`Penguin(Bird, Flyable)` implements only `fly` (returning "... can't
fly."); `bird_info` builds the f-string
`"{bird.name} says: {bird.sing()} and {bird.fly()}"`, which looks up the
`sing` attribute first and the `fly` attribute second; a missing
attribute raises `AttributeError` in Python, embedded as `Except.error`.
-/

/-- The concrete classes of the final example: `Sparrow`, `Penguin`, and
the plain base `Bird` (instantiable, with no capability methods). -/
inductive FinalVariant
  | sparrow
  | penguin
  | bird
  deriving DecidableEq, Repr

/-- A Python runtime error; the only one this program can raise is
`AttributeError` for a missing attribute. -/
inductive PyError
  | attributeError (attr : String)
  deriving DecidableEq, Repr

/-- An entity of the final example: a `Bird.__init__`-constructed object
with its `name` attribute and its concrete class. -/
structure Entity where
  name : String
  variant : FinalVariant
  deriving DecidableEq, Repr

/-- `Bird.__init__` (source lines 255-257): stores the name unchecked and
never raises. -/
def mkBird (v : FinalVariant) (name : String) : Except PyError Entity :=
  Except.ok ⟨name, v⟩

/-- Attribute lookup of `fly` followed by its call: `Sparrow.fly` returns
"... is flying." (line 261-262), `Penguin.fly` returns "... can't fly."
(lines 268-269), and the plain base `Bird` has no `fly` attribute. -/
def fly (b : Entity) : Option String :=
  match b.variant with
  | .sparrow => some (b.name ++ " is flying.")
  | .penguin => some (b.name ++ " can\x27t fly.")
  | .bird => none

/-- Attribute lookup of `sing` followed by its call: only `Sparrow`
implements it (lines 264-265), returning "... is singing.". -/
def sing (b : Entity) : Option String :=
  match b.variant with
  | .sparrow => some (b.name ++ " is singing.")
  | .penguin => none
  | .bird => none

/-- `bird_info` (source lines 272-273): evaluates the f-string
`"{bird.name} says: {bird.sing()} and {bird.fly()}"` left to right; a
missing `sing` or `fly` attribute raises `AttributeError`. -/
def bird_info (b : Entity) : Except PyError String :=
  match sing b with
  | none => Except.error (PyError.attributeError "sing")
  | some s =>
    match fly b with
    | none => Except.error (PyError.attributeError "fly")
    | some f => Except.ok (b.name ++ " says: " ++ s ++ " and " ++ f)

/-- Method-call views recording the state of the entity after the call:
the Python method bodies contain no attribute assignment, so the
post-state equals the pre-state. -/
def flyCall (b : Entity) : Except PyError String × Entity :=
  match fly b with
  | some s => (Except.ok s, b)
  | none => (Except.error (PyError.attributeError "fly"), b)

/-- State-passing view of a `sing` call; the body assigns nothing. -/
def singCall (b : Entity) : Except PyError String × Entity :=
  match sing b with
  | some s => (Except.ok s, b)
  | none => (Except.error (PyError.attributeError "sing"), b)

/-- State-passing view of a `bird_info` call; the body assigns nothing. -/
def bird_infoCall (b : Entity) : Except PyError String × Entity :=
  (bird_info b, b)

/-!
## LSP-adhering section (source lines 107-120)
-/

/-- `Sparrow(Bird)` of the LSP-adhering section (lines 114-116). -/
structure LspSparrow where
  name : String
  deriving DecidableEq, Repr

/-- `Sparrow.move` (lines 115-116). -/
def LspSparrow.move (b : LspSparrow) : String :=
  b.name ++ " is flying."

/-- `Penguin(Bird)` of the LSP-adhering section (lines 118-120). -/
structure LspPenguin where
  name : String
  deriving DecidableEq, Repr

/-- `Penguin.move` (lines 119-120). -/
def LspPenguin.move (b : LspPenguin) : String :=
  b.name ++ " is swimming."

/-!
## ISP-adhering section (source lines 145-165)
-/

/-- `Sparrow(Bird, Flyable)` of the ISP-adhering section. -/
structure IspSparrow where
  name : String
  deriving DecidableEq, Repr

/-- `Sparrow.fly` (lines 160-161). -/
def IspSparrow.fly (b : IspSparrow) : String :=
  b.name ++ " is flying."

/-- `Penguin(Bird, Swimmable)` of the ISP-adhering section. -/
structure IspPenguin where
  name : String
  deriving DecidableEq, Repr

/-- `Penguin.swim` (lines 164-165). -/
def IspPenguin.swim (b : IspPenguin) : String :=
  b.name ++ " is swimming."

/-!
## OCP-violating section (source lines 86-99)
-/

/-- The OCP-violating `Bird` (lines 86-89): name and species strings. -/
structure OcpViolBird where
  name : String
  species : String
  deriving DecidableEq, Repr

/-- The OCP-violating `Bird.describe` (lines 91-99): an if/elif chain on
the species string with an "unknown bird" fallback. -/
def OcpViolBird.describe (b : OcpViolBird) : String :=
  if b.species = "sparrow" then b.name ++ " is a sparrow."
  else if b.species = "penguin" then b.name ++ " is a penguin."
  else if b.species = "ostrich" then b.name ++ " is an ostrich."
  else b.name ++ " is an unknown bird."

/-!
## LSP-violating section (source lines 125-134)
-/

/-- The LSP-violating `Bird` (lines 125-128): name and ability strings. -/
structure LspViolBird where
  name : String
  ability : String
  deriving DecidableEq, Repr

/-- The LSP-violating `Bird.move` (lines 130-134): an if/elif chain with
no else branch, so any other ability falls through and Python returns
`None`, embedded as `none`. -/
def LspViolBird.move (b : LspViolBird) : Option String :=
  if b.ability = "flying" then some (b.name ++ " is flying.")
  else if b.ability = "swimming" then some (b.name ++ " is swimming.")
  else none

/-!
## DIP section (source lines 186-234)

Adhering version (lines 188-209): `Bird` is abstract, so only `Sparrow`
and `Penguin` can be instantiated; `BirdController.make_move` returns
`self.bird.move()`. Violating version (lines 214-234): `Bird` is
concrete with a `move` body of `pass` (returning `None`); the controller
is textually identical.
-/

/-- The instantiable birds of the DIP-adhering section. -/
inductive DipBird
  | sparrow (name : String)
  | penguin (name : String)
  deriving DecidableEq, Repr

/-- `move` of the DIP-adhering birds (lines 203-209). -/
def DipBird.move : DipBird → String
  | .sparrow n => n ++ " is flying."
  | .penguin n => n ++ " is swimming."

/-- `BirdController` of the DIP-adhering section (lines 196-198). -/
structure BirdController where
  bird : DipBird
  deriving DecidableEq, Repr

/-- `BirdController.make_move` (lines 200-201). -/
def BirdController.make_move (c : BirdController) : String :=
  c.bird.move

/-- The instantiable birds of the DIP-violating section, including the
concrete base `Bird` whose `move` is `pass`. -/
inductive DipBirdV
  | bird (name : String)
  | sparrow (name : String)
  | penguin (name : String)
  deriving DecidableEq, Repr

/-- `move` of the DIP-violating birds (lines 218-219, 228-234): the base
`Bird.move` body is `pass`, returning `None`. -/
def DipBirdV.move : DipBirdV → Option String
  | .bird _ => none
  | .sparrow n => some (n ++ " is flying.")
  | .penguin n => some (n ++ " is swimming.")

/-- `BirdController` of the DIP-violating section (lines 221-223). -/
structure BirdControllerV where
  bird : DipBirdV
  deriving DecidableEq, Repr

/-- `BirdController.make_move` of the DIP-violating section (lines
225-226). -/
def BirdControllerV.make_move (c : BirdControllerV) : Option String :=
  c.bird.move

/-!
## Helper lemmas on strings
-/

/-- A capability output is good for name `n` when it is non-empty and
contains `n` as a substring. -/
def goodOutput (n s : String) : Prop :=
  s ≠ "" ∧ strHasSub s n = true

theorem data_append_eq (a b : String) : (a ++ b).data = a.data ++ b.data :=
  rfl

theorem string_eq_of_data_eq : ∀ (s t : String), s.data = t.data → s = t
  | ⟨_⟩, ⟨_⟩, rfl => rfl

theorem startsWith_append (x y : List Char) :
    listStartsWith (x ++ y) x = true := by
  induction x with
  | nil => cases y <;> rfl
  | cons a as ih => simp [listStartsWith, ih]

theorem findSub_of_startsWith (s pat : List Char)
    (h : listStartsWith s pat = true) : listFindSub s pat = some 0 := by
  cases s with
  | nil =>
    cases pat with
    | nil => rfl
    | cons b bs => simp [listStartsWith] at h
  | cons a as => simp [listFindSub, h]

theorem goodOutput_append (n s : String) (h : s ≠ "") :
    goodOutput n (n ++ s) := by
  refine ⟨fun he => h ?_, ?_⟩
  · have hd : n.data ++ s.data = ([] : List Char) := by
      have h2 := congrArg String.data he
      rw [data_append_eq] at h2
      exact h2
    exact string_eq_of_data_eq s "" (List.append_eq_nil.mp hd).2
  · unfold strHasSub strFindSub
    rw [data_append_eq, findSub_of_startsWith _ _ (startsWith_append _ _)]
    rfl

/-!
## Claims
-/

/-- C1: the claim says `bird_info` never invokes a capability the variant
does not implement and always returns text without error. On the code it
is false: `Penguin` does not implement `sing`, yet `bird_info` looks up
`sing` unconditionally, so `bird_info(Penguin("Penguin"))` raises
`AttributeError` for `sing` instead of returning a text. -/
theorem bird_info_invokes_missing_sing :
    sing ⟨"Penguin", FinalVariant.penguin⟩ = none ∧
    bird_info ⟨"Penguin", FinalVariant.penguin⟩ =
      Except.error (PyError.attributeError "sing") :=
  ⟨rfl, rfl⟩

/-- C2 counterexample: constructing a bird with the empty name succeeds
(no `InvalidEntity` is raised), refuting the claim that empty-name
construction fails. -/
theorem empty_name_construction_succeeds :
    mkBird FinalVariant.sparrow "" =
      Except.ok ⟨"", FinalVariant.sparrow⟩ :=
  rfl

/-- C2 (amended): `Bird.__init__` validates nothing — for every variant
and every name, including the empty one, construction succeeds and
stores the name verbatim; no `InvalidEntity` error exists in the code. -/
theorem construction_never_fails (v : FinalVariant) (n : String) :
    mkBird v n = Except.ok ⟨n, v⟩ :=
  rfl

/-- C3 counterexample: on `Sparrow("Sparrow")`, where both capabilities
are present, the first occurrence of the movement phrase "flying" comes
after (not before) the first occurrence of the vocalization phrase
"singing", refuting the claimed movement-before-vocalization order. -/
theorem movement_not_before_vocalization :
    bird_info ⟨"Sparrow", FinalVariant.sparrow⟩ =
      Except.ok "Sparrow says: Sparrow is singing. and Sparrow is flying." ∧
    (strFindSub "Sparrow says: Sparrow is singing. and Sparrow is flying."
        "flying").isSome = true ∧
    (strFindSub "Sparrow says: Sparrow is singing. and Sparrow is flying."
        "singing").isSome = true ∧
    ((strFindSub "Sparrow says: Sparrow is singing. and Sparrow is flying."
        "flying").getD 0 <
      (strFindSub "Sparrow says: Sparrow is singing. and Sparrow is flying."
        "singing").getD 0) = false := by
  refine ⟨rfl, by decide, by decide, by decide⟩

/-- C3 (amended): whenever an entity has both capabilities, `bird_info`
combines the outputs deterministically in the fixed declared order of
the f-string — name, then the vocalization output, then the movement
output. -/
theorem bird_info_vocalization_before_movement (b : Entity) (s f : String)
    (hs : sing b = some s) (hf : fly b = some f) :
    bird_info b = Except.ok (b.name ++ " says: " ++ s ++ " and " ++ f) := by
  unfold bird_info
  rw [hs, hf]

/-- C3 witness: the amended order theorem applied to the sparrow. -/
theorem bird_info_vocalization_before_movement_witness :
    bird_info ⟨"Sparrow", FinalVariant.sparrow⟩ =
      Except.ok ("Sparrow" ++ " says: " ++ "Sparrow is singing." ++
        " and " ++ "Sparrow is flying.") :=
  bird_info_vocalization_before_movement ⟨"Sparrow", FinalVariant.sparrow⟩
    "Sparrow is singing." "Sparrow is flying." rfl rfl

/-- C4: the claim says `bird_info` on `Penguin("Penguin")` returns a
text containing "swimming" and no "singing". On the code it is false
twice over: `bird_info` raises `AttributeError` for the missing `sing`
attribute, and the penguin's movement output is "Penguin can't fly.",
which does not contain "swimming". -/
theorem penguin_info_fails_and_no_swimming :
    bird_info ⟨"Penguin", FinalVariant.penguin⟩ =
      Except.error (PyError.attributeError "sing") ∧
    fly ⟨"Penguin", FinalVariant.penguin⟩ = some "Penguin can\x27t fly." ∧
    strHasSub "Penguin can\x27t fly." "swimming" = false := by
  refine ⟨rfl, rfl, by decide⟩

/-- C5: `bird_info` on `Sparrow("Sparrow")` returns a string containing
both "flying" and "singing". -/
theorem sparrow_info_contains_flying_and_singing :
    bird_info ⟨"Sparrow", FinalVariant.sparrow⟩ =
      Except.ok "Sparrow says: Sparrow is singing. and Sparrow is flying." ∧
    strHasSub "Sparrow says: Sparrow is singing. and Sparrow is flying."
      "flying" = true ∧
    strHasSub "Sparrow says: Sparrow is singing. and Sparrow is flying."
      "singing" = true := by
  refine ⟨rfl, by decide, by decide⟩

/-- C6: for every variant and every capability it implements — the final
example's `Sparrow.fly`, `Sparrow.sing`, `Penguin.fly`, the
LSP-adhering `Sparrow.move` and `Penguin.move`, the ISP-adhering
`Sparrow.fly` and `Penguin.swim`, and the DIP-adhering `Sparrow.move`
and `Penguin.move` — invoking the operation on an instance constructed
with name `n` returns a non-empty text containing `n` as a substring. -/
theorem capability_outputs_contain_name (n : String) :
    (fly ⟨n, FinalVariant.sparrow⟩ = some (n ++ " is flying.") ∧
      goodOutput n (n ++ " is flying.")) ∧
    (sing ⟨n, FinalVariant.sparrow⟩ = some (n ++ " is singing.") ∧
      goodOutput n (n ++ " is singing.")) ∧
    (fly ⟨n, FinalVariant.penguin⟩ = some (n ++ " can\x27t fly.") ∧
      goodOutput n (n ++ " can\x27t fly.")) ∧
    (LspSparrow.move ⟨n⟩ = n ++ " is flying." ∧
      goodOutput n (n ++ " is flying.")) ∧
    (LspPenguin.move ⟨n⟩ = n ++ " is swimming." ∧
      goodOutput n (n ++ " is swimming.")) ∧
    (IspSparrow.fly ⟨n⟩ = n ++ " is flying." ∧
      goodOutput n (n ++ " is flying.")) ∧
    (IspPenguin.swim ⟨n⟩ = n ++ " is swimming." ∧
      goodOutput n (n ++ " is swimming.")) ∧
    (DipBird.move (DipBird.sparrow n) = n ++ " is flying." ∧
      goodOutput n (n ++ " is flying.")) ∧
    (DipBird.move (DipBird.penguin n) = n ++ " is swimming." ∧
      goodOutput n (n ++ " is swimming.")) :=
  ⟨⟨rfl, goodOutput_append n _ (by decide)⟩,
   ⟨rfl, goodOutput_append n _ (by decide)⟩,
   ⟨rfl, goodOutput_append n _ (by decide)⟩,
   ⟨rfl, goodOutput_append n _ (by decide)⟩,
   ⟨rfl, goodOutput_append n _ (by decide)⟩,
   ⟨rfl, goodOutput_append n _ (by decide)⟩,
   ⟨rfl, goodOutput_append n _ (by decide)⟩,
   ⟨rfl, goodOutput_append n _ (by decide)⟩,
   ⟨rfl, goodOutput_append n _ (by decide)⟩⟩

/-- C7: the claim says `bird_info` on an entity with no capability
returns a text noting no supported capabilities. On the code it is
false: instantiating the plain base `Bird` (which implements neither
`sing` nor `fly`) and passing it to `bird_info` raises `AttributeError`
for `sing` instead of returning any text. -/
theorem no_capability_info_fails :
    sing ⟨"Birdy", FinalVariant.bird⟩ = none ∧
    fly ⟨"Birdy", FinalVariant.bird⟩ = none ∧
    bird_info ⟨"Birdy", FinalVariant.bird⟩ =
      Except.error (PyError.attributeError "sing") :=
  ⟨rfl, rfl, rfl⟩

/-- C8: every operation is pure and immutable: the entity after a `fly`,
`sing` or `bird_info` call equals the entity before it (in particular
the `name` attribute is unchanged), and repeating a call on the
post-state entity returns the same string as the first call. -/
theorem operations_pure_and_immutable (b : Entity) :
    (flyCall b).2 = b ∧
    (singCall b).2 = b ∧
    (bird_infoCall b).2 = b ∧
    ((bird_infoCall b).2).name = b.name ∧
    (flyCall ((flyCall b).2)).1 = (flyCall b).1 ∧
    (singCall ((singCall b).2)).1 = (singCall b).1 ∧
    (bird_infoCall ((bird_infoCall b).2)).1 = (bird_infoCall b).1 := by
  have hf : (flyCall b).2 = b := by
    unfold flyCall
    cases fly b <;> rfl
  have hs : (singCall b).2 = b := by
    unfold singCall
    cases sing b <;> rfl
  refine ⟨hf, hs, rfl, rfl, ?_, ?_, rfl⟩
  · rw [hf]
  · rw [hs]

/-- C9: the OCP-violating `Bird.describe` is total — any species other
than "sparrow", "penguin" or "ostrich" hits the else branch and yields
the "unknown bird" fallback — while the LSP-violating `Bird.move` has no
else branch, so any ability other than "flying" or "swimming" falls
through and returns `None`. -/
theorem unknown_species_total_unknown_ability_none
    (name species ability : String)
    (h1 : species ≠ "sparrow") (h2 : species ≠ "penguin")
    (h3 : species ≠ "ostrich")
    (h4 : ability ≠ "flying") (h5 : ability ≠ "swimming") :
    OcpViolBird.describe ⟨name, species⟩ = name ++ " is an unknown bird." ∧
    LspViolBird.move ⟨name, ability⟩ = none := by
  constructor
  · unfold OcpViolBird.describe
    simp only [if_neg h1, if_neg h2, if_neg h3]
  · unfold LspViolBird.move
    simp only [if_neg h4, if_neg h5]

/-- C9 witness: the fallback theorem applied to a parrot that runs. -/
theorem unknown_species_total_unknown_ability_none_witness :
    OcpViolBird.describe ⟨"Tweety", "parrot"⟩ =
      "Tweety" ++ " is an unknown bird." ∧
    LspViolBird.move ⟨"Tweety", "running"⟩ = none :=
  unknown_species_total_unknown_ability_none "Tweety" "parrot" "running"
    (by decide) (by decide) (by decide) (by decide) (by decide)

/-- C10: in both the DIP-adhering and the DIP-violating version,
`BirdController.make_move` returns exactly the result of the wrapped
bird's own `move()`, and on the shared variants (`Sparrow`, `Penguin`
with equal names) the two versions produce the same movement string. -/
theorem controllers_delegate_and_agree :
    (∀ c : BirdController, c.make_move = c.bird.move) ∧
    (∀ c : BirdControllerV, c.make_move = c.bird.move) ∧
    (∀ n : String, BirdControllerV.make_move ⟨DipBirdV.sparrow n⟩ =
      some (BirdController.make_move ⟨DipBird.sparrow n⟩)) ∧
    (∀ n : String, BirdControllerV.make_move ⟨DipBirdV.penguin n⟩ =
      some (BirdController.make_move ⟨DipBird.penguin n⟩)) :=
  ⟨fun _ => rfl, fun _ => rfl, fun _ => rfl, fun _ => rfl⟩
